import Mathlib

/-!
# Verification of the diet-agent nutrition/goal engine

A shallow embedding of the deterministic core of the diet-agent repository
(`app/services/nutrition.py`, `app/services/ai_planner.py`,
`app/services/goal_tracker.py`, and the meal-plan total computations in
`app/services/scheduler.py` and `app/notifications/telegram.py`),
together with theorems settling the specification's claims about it.

Python floats are modelled as exact rationals (`ℚ`), Python ints as `ℤ`.
Python 3's `round` builtin (round half to even) is modelled by `pyRound`;
`int()` truncation toward zero by `pyTrunc`; `x or default` on optional
integers (which also replaces a stored `0`) by `orDefault`.
-/

namespace DietAgent

/-- Python 3 `round` on a real value: round half to even (banker's rounding). -/
def pyRound (x : ℚ) : ℤ :=
  if Int.fract x < 1/2 then ⌊x⌋
  else if 1/2 < Int.fract x then ⌊x⌋ + 1
  else if 2 ∣ ⌊x⌋ then ⌊x⌋ else ⌊x⌋ + 1

/-- Python `int()` applied to a float: truncation toward zero. -/
def pyTrunc (x : ℚ) : ℤ :=
  if 0 ≤ x then ⌊x⌋ else -⌊-x⌋

/-- Python `opt or d` for an optional integer: `None` and `0` both give `d`. -/
def orDefault (o : Option ℤ) (d : ℤ) : ℤ :=
  match o with
  | none => d
  | some n => if n = 0 then d else n

/-- Python `opt or d` for an optional string (the empty string is falsy). -/
def orDefaultStr (o : Option String) (d : String) : String :=
  match o with
  | none => d
  | some s => if s = "" then d else s

/-! ## NutritionCalculator (`app/services/nutrition.py`) -/

/-- `NutritionCalculator.ACTIVITY_MULTIPLIERS.get(level, 1.2)`. -/
def activityMultiplier (level : String) : ℚ :=
  if level = "sedentary" then 1.2
  else if level = "light" then 1.375
  else if level = "moderate" then 1.55
  else if level = "active" then 1.725
  else if level = "very_active" then 1.9
  else 1.2

/-- `NutritionCalculator.GOAL_ADJUSTMENTS.get(goal, 1.0)`. -/
def goalAdjustment (goal : String) : ℚ :=
  if goal = "weight_loss" then 0.80
  else if goal = "muscle_gain" then 1.15
  else if goal = "maintenance" then 1.0
  else if goal = "keto" then 0.85
  else if goal = "intermittent_fasting" then 0.90
  else 1.0

/-- `NutritionCalculator.MACRO_RATIOS.get(goal, (0.25, 0.50, 0.25))`:
protein, carbs, fat shares. -/
def ratiosFor (goal : String) : ℚ × ℚ × ℚ :=
  if goal = "weight_loss" then (0.35, 0.35, 0.30)
  else if goal = "muscle_gain" then (0.30, 0.45, 0.25)
  else if goal = "maintenance" then (0.25, 0.50, 0.25)
  else if goal = "keto" then (0.25, 0.05, 0.70)
  else if goal = "intermittent_fasting" then (0.30, 0.40, 0.30)
  else (0.25, 0.50, 0.25)

/-- `NutritionCalculator.calculate_bmr` (Mifflin-St Jeor, rounded). -/
def calculate_bmr (weight_kg height_cm : ℚ) (age : ℤ) (gender : String) : ℤ :=
  if gender = "male" then
    pyRound (10 * weight_kg + 6.25 * height_cm - 5 * (age : ℚ) + 5)
  else if gender = "female" then
    pyRound (10 * weight_kg + 6.25 * height_cm - 5 * (age : ℚ) - 161)
  else
    pyRound (((10 * weight_kg + 6.25 * height_cm - 5 * (age : ℚ) + 5)
      + (10 * weight_kg + 6.25 * height_cm - 5 * (age : ℚ) - 161)) / 2)

/-- `NutritionCalculator.calculate_tdee`. -/
def calculate_tdee (weight_kg height_cm : ℚ) (age : ℤ) (gender activity_level : String) : ℤ :=
  pyRound ((calculate_bmr weight_kg height_cm age gender : ℚ) * activityMultiplier activity_level)

/-- The `NutritionTargets` dataclass. -/
structure NutritionTargets where
  calories : ℤ
  protein : ℤ
  carbs : ℤ
  fat : ℤ
  deriving Repr, DecidableEq

/-- `NutritionCalculator.calculate_targets`. -/
def calculate_targets (weight_kg height_cm : ℚ) (age : ℤ)
    (gender activity_level goal_type : String) (custom_calories : Option ℤ) :
    NutritionTargets :=
  let tdee := calculate_tdee weight_kg height_cm age gender activity_level
  let adjustment := goalAdjustment goal_type
  let target_calories := orDefault custom_calories (pyRound ((tdee : ℚ) * adjustment))
  let ratios := ratiosFor goal_type
  { calories := target_calories
    protein := pyRound ((target_calories : ℚ) * ratios.1 / 4)
    carbs := pyRound ((target_calories : ℚ) * ratios.2.1 / 4)
    fat := pyRound ((target_calories : ℚ) * ratios.2.2 / 9) }

/-- `NutritionCalculator.get_meal_distribution`, kept as an ordered
association list mirroring the source's dict literals. -/
def get_meal_distribution (meal_frequency : ℤ) (goal_type : String) :
    List (String × ℚ) :=
  if goal_type = "intermittent_fasting" then
    if 3 ≤ meal_frequency then
      [("lunch", 0.45), ("dinner", 0.45), ("snacks", 0.10)]
    else
      [("lunch", 0.50), ("dinner", 0.50)]
  else if meal_frequency = 1 then [("dinner", 1.0)]
  else if meal_frequency = 2 then [("lunch", 0.45), ("dinner", 0.55)]
  else if meal_frequency = 3 then
    [("breakfast", 0.25), ("lunch", 0.35), ("dinner", 0.40)]
  else if meal_frequency = 4 then
    [("breakfast", 0.20), ("lunch", 0.30), ("dinner", 0.35), ("snacks", 0.15)]
  else if 5 ≤ meal_frequency then
    [("breakfast", 0.20), ("mid_morning_snack", 0.10), ("lunch", 0.25),
     ("afternoon_snack", 0.10), ("dinner", 0.30), ("evening_snack", 0.05)]
  else [("breakfast", 0.25), ("lunch", 0.35), ("dinner", 0.40)]

/-! ## Data model (`app/models/user.py`, `app/models/tracking.py`)

Only the fields the engine reads are carried.  Dates are modelled as
integer day numbers; the database collaborator is a record of query
functions, mirroring the `DatabaseService` calls the tracker makes. -/

/-- The fields of the `User` model consumed by the engine. -/
structure User where
  goal_type : Option String
  target_calories : Option ℤ
  target_protein : Option ℤ
  target_carbs : Option ℤ
  target_fat : Option ℤ
  restrictions : List String
  cuisine_preferences : List String
  meal_frequency : ℤ
  budget : String

/-- The dict returned by `DatabaseService.get_daily_totals`. -/
structure Totals where
  calories : ℤ
  protein : ℤ
  carbs : ℤ
  fat : ℤ
  meals_logged : ℤ

/-- The database collaborator as seen by `GoalTracker`: daily food totals
and water per date, the weight history for the report window (newest
first, as `get_weight_history` orders it), and the logging streak. -/
structure DB where
  daily_totals : ℤ → Totals
  daily_water : ℤ → ℤ
  weight_history : List ℚ
  logging_streak : Option ℤ

/-- The `DailyProgress` model. -/
structure DailyProgress where
  date : ℤ
  calories_consumed : ℤ
  calories_target : ℤ
  protein_consumed : ℤ
  protein_target : ℤ
  carbs_consumed : ℤ
  carbs_target : ℤ
  fat_consumed : ℤ
  fat_target : ℤ
  water_ml : ℤ
  meals_logged : ℤ
  on_track : Bool

/-- The `WeeklyReport` model (the stored averages are the `round(...)`
results the code puts in them). -/
structure WeeklyReport where
  start_date : ℤ
  end_date : ℤ
  avg_calories : ℤ
  avg_protein : ℤ
  avg_carbs : ℤ
  avg_fat : ℤ
  weight_change : Option ℚ
  days_on_track : ℕ
  total_days : ℕ
  logging_streak : ℤ
  recommendations : List String

/-! ## GoalTracker (`app/services/goal_tracker.py`) -/

/-- `GoalTracker.get_daily_progress`. -/
def get_daily_progress (db : DB) (user : User) (target_date : ℤ) : DailyProgress :=
  let totals := db.daily_totals target_date
  let water := db.daily_water target_date
  let cal_target := orDefault user.target_calories 2000
  let protein_target := orDefault user.target_protein 150
  let carbs_target := orDefault user.target_carbs 250
  let fat_target := orDefault user.target_fat 65
  let cal_diff : ℚ :=
    if cal_target ≠ 0 then |((totals.calories : ℚ) - (cal_target : ℚ))| / (cal_target : ℚ)
    else 0
  let on_track := decide (cal_diff ≤ 0.15) && decide (2 ≤ totals.meals_logged)
  { date := target_date
    calories_consumed := totals.calories
    calories_target := cal_target
    protein_consumed := totals.protein
    protein_target := protein_target
    carbs_consumed := totals.carbs
    carbs_target := carbs_target
    fat_consumed := totals.fat
    fat_target := fat_target
    water_ml := water
    meals_logged := totals.meals_logged
    on_track := on_track }

/-- The recommendation strings of `_generate_recommendations`
(apostrophes written as `\x27`). -/
def wlOverMsg : String :=
  "You\x27re averaging above your calorie target. Try portion control or swap high-calorie snacks."

def wlUnderMsg : String :=
  "You\x27re eating too little. Severe restriction can slow metabolism. Aim closer to your target."

def wlPraiseMsg : String :=
  "Great progress this week! You\x27re losing weight at a healthy rate."

def mgEatMsg : String :=
  "You need to eat more to build muscle. Add calorie-dense healthy foods."

def mgProteinMsg : String :=
  "Increase protein intake for muscle growth. Add eggs, chicken, or protein shakes."

def proteinLowMsg (avg_protein : ℚ) (protein_target : ℤ) : String :=
  "Your protein intake is low (avg " ++ toString (pyRound avg_protein)
    ++ "g vs target " ++ toString protein_target
    ++ "g). Add lean meats, eggs, legumes, or Greek yogurt."

def consistencyMsg : String :=
  "Try to log your meals more consistently. Tracking helps you stay aware of your intake."

def waterMsg : String :=
  "Your water intake seems low. Aim for at least 2-3 liters daily."

def excellentMsg : String :=
  "Excellent consistency this week! Keep up the great work!"

def goodMsg : String :=
  "Good progress! You\x27re building healthy habits."

/-- `GoalTracker._generate_recommendations`.  The Python
`weight_change and weight_change < -0.5` (where `None` and `0.0` are
falsy) is `weight_change.elim false (fun w => decide (w < -0.5))`. -/
def generate_recommendations (user : User) (daily_data : List DailyProgress)
    (avg_calories avg_protein : ℚ) (weight_change : Option ℚ) : List String :=
  let cal_target := orDefault user.target_calories 2000
  let protein_target := orDefault user.target_protein 150
  let cal_diff_pct := (avg_calories - (cal_target : ℚ)) / (cal_target : ℚ) * 100
  let goalRecs :=
    if user.goal_type = some "weight_loss" then
      if cal_diff_pct > 10 then [wlOverMsg]
      else if cal_diff_pct < -20 then [wlUnderMsg]
      else if weight_change.elim false (fun w => decide (w < -0.5)) then [wlPraiseMsg]
      else []
    else if user.goal_type = some "muscle_gain" then
      (if cal_diff_pct < -5 then [mgEatMsg] else []) ++
        (if avg_protein < (protein_target : ℚ) * 0.9 then [mgProteinMsg] else [])
    else []
  let withProtein := goalRecs ++
    (if avg_protein < (protein_target : ℚ) * 0.8
      then [proteinLowMsg avg_protein protein_target] else [])
  let logged_days := (daily_data.filter (fun d => decide (0 < d.meals_logged))).length
  let withConsistency := withProtein ++ (if logged_days < 5 then [consistencyMsg] else [])
  let avg_water :=
    (((daily_data.map (fun d => d.water_ml)).sum : ℤ) : ℚ) / (daily_data.length : ℚ)
  let withWater := withConsistency ++ (if avg_water < 1500 then [waterMsg] else [])
  let on_track_days := (daily_data.filter (fun d => d.on_track)).length
  let finalRecs :=
    if 5 ≤ on_track_days then excellentMsg :: withWater
    else if 3 ≤ on_track_days then goodMsg :: withWater
    else withWater
  finalRecs.take 5

/-- `GoalTracker.get_weekly_report`. -/
def get_weekly_report (db : DB) (user : User) (end_date : ℤ) : WeeklyReport :=
  let start_date := end_date - 6
  let daily_data := (List.range 7).map (fun (i : ℕ) => get_daily_progress db user (start_date + (i : ℤ)))
  let days_on_track := (daily_data.filter (fun d => d.on_track)).length
  let total_days := daily_data.length
  let avg_calories :=
    (((daily_data.map (fun d => d.calories_consumed)).sum : ℤ) : ℚ) / (total_days : ℚ)
  let avg_protein :=
    (((daily_data.map (fun d => d.protein_consumed)).sum : ℤ) : ℚ) / (total_days : ℚ)
  let avg_carbs :=
    (((daily_data.map (fun d => d.carbs_consumed)).sum : ℤ) : ℚ) / (total_days : ℚ)
  let avg_fat :=
    (((daily_data.map (fun d => d.fat_consumed)).sum : ℤ) : ℚ) / (total_days : ℚ)
  let weight_change : Option ℚ :=
    if 2 ≤ db.weight_history.length then
      some ((db.weight_history.head?.getD 0) - (db.weight_history.getLast?.getD 0))
    else none
  let logging_streak := db.logging_streak.getD 0
  let recommendations :=
    generate_recommendations user daily_data avg_calories avg_protein weight_change
  { start_date := start_date
    end_date := end_date
    avg_calories := pyRound avg_calories
    avg_protein := pyRound avg_protein
    avg_carbs := pyRound avg_carbs
    avg_fat := pyRound avg_fat
    weight_change := weight_change
    days_on_track := days_on_track
    total_days := total_days
    logging_streak := logging_streak
    recommendations := recommendations }

/-- Modelled from the spec's words for claim C6: the ordered
recommendation rule engine — goal-specific rules first (weight-loss
over/under flags, or the weight-loss praise whose test is the `lossPraise`
parameter; muscle-gain under-target and low-protein flags), then the
generic low-protein flag (below 80% of target), then the
logging-consistency flag (fewer than 5 of 7 days logged), then the
hydration flag (average water below 1500 ml), with a consistency-praise
line inserted at position 0 for at least 5 ("excellent") or at least 3
("good") on-track days, truncated to the first 5 entries.  The claimed
reading instantiates `lossPraise` with "lost at least 0.5 kg"; the
amended reading with "lost more than 0.5 kg". -/
def recommendations_spec (lossPraise : ℚ → Bool) (user : User)
    (daily_data : List DailyProgress) (avg_calories avg_protein : ℚ)
    (weight_change : Option ℚ) : List String :=
  let cal_target := orDefault user.target_calories 2000
  let protein_target := orDefault user.target_protein 150
  let cal_diff_pct := (avg_calories - (cal_target : ℚ)) / (cal_target : ℚ) * 100
  let goalRules :=
    if user.goal_type = some "weight_loss" then
      if cal_diff_pct > 10 then [wlOverMsg]
      else if cal_diff_pct < -20 then [wlUnderMsg]
      else if weight_change.elim false lossPraise then [wlPraiseMsg]
      else []
    else if user.goal_type = some "muscle_gain" then
      (if cal_diff_pct < -5 then [mgEatMsg] else []) ++
        (if avg_protein < (protein_target : ℚ) * 0.9 then [mgProteinMsg] else [])
    else []
  let ruleList := goalRules
    ++ (if avg_protein < (protein_target : ℚ) * 0.8
        then [proteinLowMsg avg_protein protein_target] else [])
    ++ (if daily_data.countP (fun d => decide (0 < d.meals_logged)) < 5
        then [consistencyMsg] else [])
    ++ (if (((daily_data.map (fun d => d.water_ml)).sum : ℤ) : ℚ) / (daily_data.length : ℚ) < 1500
        then [waterMsg] else [])
  let assembled :=
    if 5 ≤ daily_data.countP (fun d => d.on_track) then [excellentMsg] ++ ruleList
    else if 3 ≤ daily_data.countP (fun d => d.on_track) then [goodMsg] ++ ruleList
    else ruleList
  assembled.take 5

/-- The claim's reading of the weight-loss praise rule: loss of at least
0.5 kg over the week, i.e. `weight_change ≤ -0.5`. -/
def recommendations_spec_claimed : User → List DailyProgress → ℚ → ℚ →
    Option ℚ → List String :=
  recommendations_spec (fun w => decide (w ≤ -0.5))

/-- The amended reading: loss of strictly more than 0.5 kg,
i.e. `weight_change < -0.5`, as the code tests. -/
def recommendations_spec_amended : User → List DailyProgress → ℚ → ℚ →
    Option ℚ → List String :=
  recommendations_spec (fun w => decide (w < -0.5))

/-! ## Rule-based meal planning (`app/services/ai_planner.py`) -/

/-- Python's `pat in s` substring test. -/
def strContains (s pat : String) : Bool :=
  (List.range (s.toList.length + 1)).any fun i => pat.toList.isPrefixOf (s.toList.drop i)

/-- A `RuleBasedProvider.MEAL_TEMPLATES` entry. -/
structure MealT where
  name : String
  calories : ℤ
  protein : ℤ
  carbs : ℤ
  fat : ℤ
  cuisines : List String

/-- `MEAL_TEMPLATES["breakfast"]`. -/
def breakfastTemplates : List MealT :=
  [⟨"Oatmeal with Berries", 350, 12, 55, 8, ["american", "any"]⟩,
   ⟨"Scrambled Eggs with Toast", 400, 20, 30, 22, ["american", "any"]⟩,
   ⟨"Greek Yogurt Parfait", 300, 18, 40, 8, ["mediterranean", "any"]⟩,
   ⟨"Avocado Toast", 320, 8, 35, 18, ["american", "any"]⟩,
   ⟨"Idli with Sambar", 280, 10, 50, 4, ["indian"]⟩,
   ⟨"Poha", 250, 6, 45, 6, ["indian"]⟩,
   ⟨"Smoothie Bowl", 380, 15, 60, 10, ["any"]⟩]

/-- `MEAL_TEMPLATES["lunch"]`. -/
def lunchTemplates : List MealT :=
  [⟨"Grilled Chicken Salad", 450, 35, 20, 25, ["american", "any"]⟩,
   ⟨"Quinoa Buddha Bowl", 500, 18, 65, 18, ["any"]⟩,
   ⟨"Turkey Wrap", 420, 28, 40, 16, ["american", "any"]⟩,
   ⟨"Dal with Rice", 480, 16, 70, 12, ["indian"]⟩,
   ⟨"Mediterranean Bowl", 520, 22, 55, 24, ["mediterranean"]⟩,
   ⟨"Stir Fry with Tofu", 400, 20, 45, 15, ["asian", "any"]⟩,
   ⟨"Chicken Tikka with Roti", 550, 35, 50, 20, ["indian"]⟩]

/-- `MEAL_TEMPLATES["dinner"]`. -/
def dinnerTemplates : List MealT :=
  [⟨"Baked Salmon with Vegetables", 500, 40, 25, 28, ["any"]⟩,
   ⟨"Chicken Stir Fry", 480, 35, 40, 18, ["asian", "any"]⟩,
   ⟨"Vegetable Curry with Rice", 520, 14, 75, 16, ["indian"]⟩,
   ⟨"Grilled Steak with Sweet Potato", 600, 45, 40, 28, ["american", "any"]⟩,
   ⟨"Pasta Primavera", 480, 16, 70, 14, ["italian", "any"]⟩,
   ⟨"Fish Tacos", 450, 28, 45, 18, ["mexican", "any"]⟩,
   ⟨"Palak Paneer with Naan", 550, 22, 55, 26, ["indian"]⟩]

/-- `MEAL_TEMPLATES["snacks"]`. -/
def snackTemplates : List MealT :=
  [⟨"Apple with Almond Butter", 200, 5, 25, 10, ["any"]⟩,
   ⟨"Greek Yogurt", 150, 15, 10, 5, ["any"]⟩,
   ⟨"Mixed Nuts", 180, 5, 8, 16, ["any"]⟩,
   ⟨"Hummus with Veggies", 150, 6, 15, 8, ["mediterranean", "any"]⟩,
   ⟨"Protein Bar", 200, 20, 22, 8, ["any"]⟩,
   ⟨"Roasted Chickpeas", 130, 6, 20, 3, ["indian", "any"]⟩]

/-- `MEAL_TEMPLATES.get(meal_type, [])`, as the plan-generation loop reads it. -/
def mealTemplatesOrEmpty (meal_type : String) : List MealT :=
  if meal_type = "breakfast" then breakfastTemplates
  else if meal_type = "lunch" then lunchTemplates
  else if meal_type = "dinner" then dinnerTemplates
  else if meal_type = "snacks" then snackTemplates
  else []

/-- `MEAL_TEMPLATES.get(meal_type, MEAL_TEMPLATES["snacks"])`, as
`get_meal_suggestion` reads it. -/
def mealTemplatesFor (meal_type : String) : List MealT :=
  if meal_type = "breakfast" then breakfastTemplates
  else if meal_type = "lunch" then lunchTemplates
  else if meal_type = "dinner" then dinnerTemplates
  else if meal_type = "snacks" then snackTemplates
  else snackTemplates

/-- Keywords excluded for vegetarian and vegan meals. -/
def meatWords : List String :=
  ["chicken", "beef", "fish", "salmon", "steak", "turkey", "meat"]

/-- Additional keywords excluded for vegan meals. -/
def veganWords : List String := ["egg", "yogurt", "cheese", "paneer", "milk"]

/-- Keywords excluded for gluten-free meals. -/
def glutenWords : List String := ["bread", "toast", "pasta", "naan", "roti", "wrap"]

/-- The per-meal exclusion test of `_filter_by_restrictions`: some
restriction's keyword rule matches the lowercased meal name. -/
def excludedMeal (meal : MealT) (restrictions : List String) : Bool :=
  let name_lower := meal.name.toLower
  restrictions.any fun restriction =>
    let rl := restriction.toLower
    (decide (rl = "vegetarian" ∨ rl = "vegan")
      && meatWords.any (fun w => strContains name_lower w))
    || (decide (rl = "vegan") && veganWords.any (fun w => strContains name_lower w))
    || (decide (rl = "gluten-free") && glutenWords.any (fun w => strContains name_lower w))

/-- `RuleBasedProvider._filter_by_restrictions`. -/
def filter_by_restrictions (meals : List MealT) (restrictions : List String) :
    List MealT :=
  if restrictions.isEmpty then meals
  else
    let filtered := meals.filter (fun m => ! excludedMeal m restrictions)
    if filtered.isEmpty then meals.take 2 else filtered

/-- `RuleBasedProvider._filter_by_cuisine`. -/
def filter_by_cuisine (meals : List MealT) (preferences : List String) : List MealT :=
  if preferences.isEmpty then meals
  else
    let prefs_lower := preferences.map String.toLower
    let filtered := meals.filter fun m =>
      let meal_cuisines := m.cuisines.map String.toLower
      meal_cuisines.contains "any" || prefs_lower.any (fun p => meal_cuisines.contains p)
    if filtered.isEmpty then meals else filtered

/-- `random.choice`, modelled by an externally supplied index; `none`
exactly when the list is empty (where Python raises `IndexError`). -/
def choice {α : Type} (r : ℕ) (l : List α) : Option α := l[r % l.length]?

/-- A meal dict as the rule-based plan builds it. -/
structure MealData where
  name : String
  description : String
  calories : ℤ
  protein : ℤ
  carbs : ℤ
  fat : ℤ
  prep_time_minutes : ℤ
  ingredients : List String

/-- A snack dict as the rule-based plan builds it. -/
structure SnackData where
  name : String
  calories : ℤ
  protein : ℤ
  carbs : ℤ
  fat : ℤ

/-- The plan dict produced by `generate_meal_plan`: the loop writes only
the breakfast/lunch/dinner keys, plus the snacks and shopping lists. -/
structure PlanData where
  breakfast : Option MealData
  lunch : Option MealData
  dinner : Option MealData
  snacks : List SnackData
  shopping_list : List String

/-- One iteration body of the meal-type loop in
`RuleBasedProvider.generate_meal_plan` (filtering, recent-meal avoidance
and random choice for one slot). -/
def gen_meal (meal_type : String)
    (restrictions cuisine_preferences recent_meals : List String) (r : ℕ) :
    Option MealData :=
  let options := mealTemplatesOrEmpty meal_type
  let options := filter_by_restrictions options restrictions
  let options := filter_by_cuisine options cuisine_preferences
  let available0 := options.filter (fun m => ! recent_meals.contains m.name)
  let available := if available0.isEmpty then options else available0
  (choice r available).map fun meal =>
    { name := meal.name
      description := "A healthy " ++ meal_type ++ " option"
      calories := meal.calories
      protein := meal.protein
      carbs := meal.carbs
      fat := meal.fat
      prep_time_minutes := 20
      ingredients := [] }

/-- One slot of the loop including the `meal_type not in distribution`
skip: `some none` when the slot is skipped, `none` on a raised
`IndexError`. -/
def gen_slot (distribution : List (String × ℚ)) (meal_type : String)
    (restrictions cuisine_preferences recent_meals : List String) (r : ℕ) :
    Option (Option MealData) :=
  if (distribution.lookup meal_type).isSome then
    (gen_meal meal_type restrictions cuisine_preferences recent_meals r).map some
  else some none

/-- The snacks step of `RuleBasedProvider.generate_meal_plan`: the snack
calorie share defaults to 0.1 when the distribution has no "snacks" key. -/
def gen_snacks (distribution : List (String × ℚ)) (target_calories : ℤ)
    (restrictions : List String) (r : ℕ) : Option (List SnackData) :=
  let snack_calories :=
    pyTrunc ((target_calories : ℚ) * ((distribution.lookup "snacks").getD 0.1))
  if 0 < snack_calories then
    (choice r (filter_by_restrictions snackTemplates restrictions)).map fun snack =>
      [{ name := snack.name
         calories := snack.calories
         protein := snack.protein
         carbs := snack.carbs
         fat := snack.fat }]
  else some []

/-- `RuleBasedProvider.generate_meal_plan`, with the meal-type loop
unrolled over its literal `["breakfast", "lunch", "dinner"]` list. -/
def RuleBasedProvider.generate_meal_plan (user : User) (target_calories : ℤ)
    (restrictions cuisine_preferences recent_meals : List String) (rnd : ℕ → ℕ) :
    Option PlanData :=
  let distribution :=
    get_meal_distribution user.meal_frequency (orDefaultStr user.goal_type "maintenance")
  match gen_slot distribution "breakfast" restrictions cuisine_preferences recent_meals (rnd 0),
        gen_slot distribution "lunch" restrictions cuisine_preferences recent_meals (rnd 1),
        gen_slot distribution "dinner" restrictions cuisine_preferences recent_meals (rnd 2),
        gen_snacks distribution target_calories restrictions (rnd 3) with
  | some b, some l, some d, some s =>
      some { breakfast := b, lunch := l, dinner := d, snacks := s, shopping_list := [] }
  | _, _, _, _ => none

/-- The dict returned by `parse_food_log` / `estimate_food_nutrition`. -/
structure Nutrition where
  calories : ℤ
  protein : ℤ
  carbs : ℤ
  fat : ℤ
  deriving DecidableEq

/-- The ordered keyword table of
`NutritionCalculator.estimate_food_nutrition` (first match wins). -/
def foodEstimates : List (String × Nutrition) :=
  [("chicken", ⟨165, 31, 0, 4⟩), ("beef", ⟨250, 26, 0, 15⟩),
   ("fish", ⟨150, 25, 0, 5⟩), ("egg", ⟨78, 6, 1, 5⟩), ("tofu", ⟨80, 8, 2, 4⟩),
   ("rice", ⟨200, 4, 45, 0⟩), ("bread", ⟨80, 3, 15, 1⟩),
   ("pasta", ⟨220, 8, 43, 1⟩), ("potato", ⟨160, 4, 37, 0⟩),
   ("oatmeal", ⟨150, 5, 27, 3⟩), ("milk", ⟨150, 8, 12, 8⟩),
   ("yogurt", ⟨100, 10, 6, 3⟩), ("cheese", ⟨110, 7, 0, 9⟩),
   ("salad", ⟨50, 2, 10, 0⟩), ("vegetables", ⟨50, 2, 10, 0⟩),
   ("broccoli", ⟨55, 4, 11, 1⟩), ("apple", ⟨95, 0, 25, 0⟩),
   ("banana", ⟨105, 1, 27, 0⟩), ("orange", ⟨62, 1, 15, 0⟩),
   ("sandwich", ⟨350, 15, 40, 15⟩), ("burger", ⟨500, 25, 40, 25⟩),
   ("pizza", ⟨285, 12, 36, 10⟩), ("salad bowl", ⟨300, 15, 30, 12⟩),
   ("smoothie", ⟨250, 8, 45, 5⟩), ("nuts", ⟨170, 5, 6, 15⟩),
   ("protein bar", ⟨200, 20, 20, 8⟩), ("cookie", ⟨150, 2, 20, 7⟩)]

/-- `NutritionCalculator.estimate_food_nutrition`. -/
def estimate_food_nutrition (food_description : String) : Nutrition :=
  let food_lower := food_description.toLower
  match foodEstimates.find? (fun kv => strContains food_lower kv.1) with
  | some kv => kv.2
  | none => ⟨200, 10, 25, 8⟩

/-- `RuleBasedProvider.parse_food_log`. -/
def RuleBasedProvider.parse_food_log (food_description : String) : Nutrition :=
  estimate_food_nutrition food_description

/-- The `Meal` pydantic model fields a suggestion populates. -/
structure MealOut where
  name : String
  description : String
  calories : ℤ
  protein : ℤ
  carbs : ℤ
  fat : ℤ
  prep_time_minutes : ℤ

/-- Python `min(options, key=f)`: first minimiser, `none` on empty input
(where Python raises `ValueError`). -/
def argminBy (f : MealT → ℤ) : List MealT → Option MealT
  | [] => none
  | x :: xs => some (xs.foldl (fun best m => if f m < f best then m else best) x)

/-- `RuleBasedProvider.get_meal_suggestion`. -/
def RuleBasedProvider.get_meal_suggestion (user : User) (meal_type : String)
    (remaining_calories : ℤ) : Option MealOut :=
  let options := mealTemplatesFor meal_type
  let options := filter_by_restrictions options user.restrictions
  let options := filter_by_cuisine options user.cuisine_preferences
  (argminBy (fun m => |m.calories - remaining_calories|) options).map fun best =>
    { name := best.name
      description := "A healthy " ++ meal_type ++ " option"
      calories := best.calories
      protein := best.protein
      carbs := best.carbs
      fat := best.fat
      prep_time_minutes := 15 }

/-! ## The AIPlanner fallback wrapper (`AIPlanner` in `ai_planner.py`) -/

/-- A configured AI provider: each capability may fail (raise). -/
structure ProviderOps where
  generate_meal_plan :
    User → ℤ → List String → List String → List String → Except String PlanData
  parse_food_log : String → Except String Nutrition
  get_meal_suggestion : User → String → ℤ → Except String MealOut

/-- `AIPlanner.generate_meal_plan`: try the provider, fall back to the
rule-based provider on any exception. -/
def AIPlanner.generate_meal_plan (provider : ProviderOps) (user : User)
    (recent_meals : Option (List String)) (rnd : ℕ → ℕ) : Option PlanData :=
  let target_calories := orDefault user.target_calories 2000
  let restrictions := user.restrictions
  let cuisine_preferences := user.cuisine_preferences
  let recent := recent_meals.getD []
  match provider.generate_meal_plan user target_calories restrictions
      cuisine_preferences recent with
  | .ok plan => some plan
  | .error _ =>
      RuleBasedProvider.generate_meal_plan user target_calories restrictions
        cuisine_preferences recent rnd

/-- `AIPlanner.parse_food_log`: fall back to the keyword estimator. -/
def AIPlanner.parse_food_log (provider : ProviderOps) (food_description : String) :
    Nutrition :=
  match provider.parse_food_log food_description with
  | .ok n => n
  | .error _ => estimate_food_nutrition food_description

/-- `AIPlanner.get_meal_suggestion`: fall back to the rule-based provider. -/
def AIPlanner.get_meal_suggestion (provider : ProviderOps) (user : User)
    (meal_type : String) (remaining_calories : ℤ) : Option MealOut :=
  match provider.get_meal_suggestion user meal_type remaining_calories with
  | .ok m => some m
  | .error _ => RuleBasedProvider.get_meal_suggestion user meal_type remaining_calories

/-! ## Persisted plan totals (`scheduler.py` and `telegram.py`) -/

/-- Sum of a nutrition field over the three main meals,
`sum(plan_data.get(m, {}).get(field, 0) for m in [...])`. -/
def mainMealsSum (p : PlanData) (f : MealData → ℤ) : ℤ :=
  (p.breakfast.map f).getD 0 + (p.lunch.map f).getD 0 + (p.dinner.map f).getD 0

/-- The four stored totals of a meal plan. -/
structure PlanTotals where
  calories : ℤ
  protein : ℤ
  carbs : ℤ
  fat : ℤ
  deriving DecidableEq

/-- The totals `telegram.plan_command` computes before persisting a plan:
every field includes the snacks. -/
def telegram_plan_totals (p : PlanData) : PlanTotals :=
  { calories := mainMealsSum p (fun m => m.calories) +
      (p.snacks.map (fun s => s.calories)).sum
    protein := mainMealsSum p (fun m => m.protein) +
      (p.snacks.map (fun s => s.protein)).sum
    carbs := mainMealsSum p (fun m => m.carbs) +
      (p.snacks.map (fun s => s.carbs)).sum
    fat := mainMealsSum p (fun m => m.fat) +
      (p.snacks.map (fun s => s.fat)).sum }

/-- The totals `scheduler._send_morning_plans` computes before persisting
a plan: only the calorie total includes the snacks. -/
def scheduler_plan_totals (p : PlanData) : PlanTotals :=
  { calories := mainMealsSum p (fun m => m.calories) +
      (p.snacks.map (fun s => s.calories)).sum
    protein := mainMealsSum p (fun m => m.protein)
    carbs := mainMealsSum p (fun m => m.carbs)
    fat := mainMealsSum p (fun m => m.fat) }

/-! ## Properties of `pyRound` -/

lemma pyRound_sub_int_of_even (x : ℚ) (k : ℤ) (hk : 2 ∣ k) :
    pyRound (x - k) = pyRound x - k := by
  unfold pyRound
  rw [Int.fract_sub_int, Int.floor_sub_int]
  rcases lt_trichotomy (Int.fract x) (1/2) with h | h | h
  · rw [if_pos h, if_pos h]
  · have h1 : ¬ Int.fract x < 1/2 := by rw [h]; exact lt_irrefl _
    have h2 : ¬ (1:ℚ)/2 < Int.fract x := by rw [h]; exact lt_irrefl _
    rw [if_neg h1, if_neg h2, if_neg h1, if_neg h2]
    by_cases hp : 2 ∣ ⌊x⌋
    · rw [if_pos (by omega : 2 ∣ ⌊x⌋ - k), if_pos hp]
    · rw [if_neg (by omega : ¬ 2 ∣ ⌊x⌋ - k), if_neg hp]
      ring
  · have h1 : ¬ Int.fract x < 1/2 := not_lt.mpr (le_of_lt h)
    rw [if_neg h1, if_pos h, if_neg h1, if_pos h]
    ring

lemma pyRound_sub_int_of_ne_half (x : ℚ) (k : ℤ) (hx : Int.fract x ≠ 1/2) :
    pyRound (x - k) = pyRound x - k := by
  unfold pyRound
  rw [Int.fract_sub_int, Int.floor_sub_int]
  rcases lt_trichotomy (Int.fract x) (1/2) with h | h | h
  · rw [if_pos h, if_pos h]
  · exact absurd h hx
  · have h1 : ¬ Int.fract x < 1/2 := not_lt.mpr (le_of_lt h)
    rw [if_neg h1, if_pos h, if_neg h1, if_pos h]
    ring

/-! ## Claims C3 and C4 -/

lemma bmr_male_concrete : calculate_bmr 70 175 30 "male" = 1649 := by
  simp only [calculate_bmr, String.reduceEq, if_true, reduceIte]
  norm_num [pyRound, Int.fract]

lemma tdee_concrete : calculate_tdee 70 175 30 "male" "moderate" = 2556 := by
  rw [calculate_tdee, bmr_male_concrete]
  have hm : activityMultiplier "moderate" = 1.55 := by
    simp [activityMultiplier, String.reduceEq]
  rw [hm]
  norm_num [pyRound, Int.fract]

lemma targets_concrete :
    calculate_targets 70 175 30 "male" "moderate" "maintenance" none =
      ⟨2556, 160, 320, 71⟩ := by
  have hadj : goalAdjustment "maintenance" = 1.0 := by
    simp [goalAdjustment, String.reduceEq]
  have hmr : ratiosFor "maintenance" = (0.25, 0.50, 0.25) := by
    simp [ratiosFor, String.reduceEq]
  rw [calculate_targets, tdee_concrete, hadj, hmr]
  simp only [orDefault]
  norm_num [pyRound, Int.fract]

/-- Claim C3 (as stated, refuted): on weight 70 kg, height 175 cm, age 30,
male, moderate activity, maintenance goal and no custom calories,
`calculate_targets` does NOT return calories 2610, protein 163, carbs 326,
fat 73: the spec's arithmetic for the Mifflin-St Jeor formula is off
(10·70 + 6.25·175 − 5·30 + 5 = 1648.75, not 1683.75). -/
theorem targets_scenario_claim_false :
    calculate_targets 70 175 30 "male" "moderate" "maintenance" none ≠
      ⟨2610, 163, 326, 73⟩ := by
  rw [targets_concrete]
  intro h
  cases h

/-- Claim C3 (amended): on the same input, `calculate_bmr` returns 1649
(from 1648.75), `calculate_tdee` returns 2556 (from 1649 × 1.55 = 2555.95),
and `calculate_targets` returns calories 2556, protein 160
(159.75 rounded), carbs 320 (319.5 rounded half-to-even) and fat 71
(639/9 = 71 exactly). -/
theorem targets_scenario_amended :
    calculate_bmr 70 175 30 "male" = 1649 ∧
    calculate_tdee 70 175 30 "male" "moderate" = 2556 ∧
    calculate_targets 70 175 30 "male" "moderate" "maintenance" none =
      ⟨2556, 160, 320, 71⟩ :=
  ⟨bmr_male_concrete, tdee_concrete, targets_concrete⟩

/-- Claim C4 (as stated, refuted): `calculate_bmr` with gender `other` is
not always the arithmetic average of the male and female outputs.  At
weight 70, height 170, age 30 the male formula gives 1617.5 → 1618 and the
female formula 1451.5 → 1452 (both round half-to-even upward), while the
averaged formula gives 1534.5 → 1534 (rounds half-to-even downward), one
less than the average 1535 of the two outputs. -/
theorem bmr_other_average_claim_false :
    (calculate_bmr 70 170 30 "other" : ℚ) ≠
      ((calculate_bmr 70 170 30 "male" : ℚ) +
        (calculate_bmr 70 170 30 "female" : ℚ)) / 2 := by
  have hm : calculate_bmr 70 170 30 "male" = 1618 := by
    simp only [calculate_bmr, String.reduceEq, reduceIte]
    norm_num [pyRound, Int.fract]
  have hf : calculate_bmr 70 170 30 "female" = 1452 := by
    simp only [calculate_bmr, String.reduceEq, reduceIte]
    norm_num [pyRound, Int.fract]
  have ho : calculate_bmr 70 170 30 "other" = 1534 := by
    simp only [calculate_bmr, String.reduceEq, reduceIte]
    norm_num [pyRound, Int.fract]
  rw [hm, hf, ho]
  norm_num

/-- Claim C4 (amended): whenever the Mifflin-St Jeor value
10·w + 6.25·h − 5·a + 5 is not an exact half-integer, `calculate_bmr` with
gender `other` equals the arithmetic average of the male and female
outputs on the same weight, height and age.  (At half-integer ties,
Python's round-half-to-even can make the two sides differ by one.) -/
theorem bmr_other_average_amended (w h : ℚ) (a : ℤ)
    (hx : Int.fract (10 * w + 6.25 * h - 5 * (a : ℚ) + 5) ≠ 1/2) :
    (calculate_bmr w h a "other" : ℚ) =
      ((calculate_bmr w h a "male" : ℚ) + (calculate_bmr w h a "female" : ℚ)) / 2 := by
  have e1 : ((10 * w + 6.25 * h - 5 * (a : ℚ) + 5)
        + (10 * w + 6.25 * h - 5 * (a : ℚ) - 161)) / 2
      = (10 * w + 6.25 * h - 5 * (a : ℚ) + 5) - ((83 : ℤ) : ℚ) := by
    push_cast
    ring
  have e2 : 10 * w + 6.25 * h - 5 * (a : ℚ) - 161
      = (10 * w + 6.25 * h - 5 * (a : ℚ) + 5) - ((166 : ℤ) : ℚ) := by
    push_cast
    ring
  simp only [calculate_bmr, String.reduceEq, reduceIte]
  rw [e1, e2, pyRound_sub_int_of_ne_half _ _ hx,
    pyRound_sub_int_of_even _ 166 (by norm_num)]
  push_cast
  ring

/-- Witness for `bmr_other_average_amended`: at weight 70, height 175,
age 30 the formula value 1648.75 is not a half-integer, and the
other-gender output 1566 is the average of male 1649 and female 1483. -/
theorem bmr_other_average_amended_witness :
    Int.fract (10 * 70 + 6.25 * 175 - 5 * ((30 : ℤ) : ℚ) + 5) ≠ 1/2 ∧
    (calculate_bmr 70 175 30 "other" : ℚ) =
      ((calculate_bmr 70 175 30 "male" : ℚ) +
        (calculate_bmr 70 175 30 "female" : ℚ)) / 2 :=
  ⟨by norm_num [Int.fract], bmr_other_average_amended 70 175 30 (by norm_num [Int.fract])⟩

/-! ## Claim C8: meal distribution percentages sum to 1 -/

/-- Claim C8: for every meal frequency (in particular 1 through 8) and
every goal type — including both intermittent-fasting override branches
and the default fallback branch — the percentages in the distribution
returned by `get_meal_distribution` sum to 1.0 within a tolerance of
0.001 (in fact they sum to exactly 1). -/
theorem meal_distribution_sums_to_one (meal_frequency : ℤ) (goal_type : String) :
    |((get_meal_distribution meal_frequency goal_type).map Prod.snd).sum - 1|
      ≤ 1/1000 := by
  unfold get_meal_distribution
  split_ifs <;> norm_num

/-! ## Claim C7: the on-track predicate -/

/-- A user with a 2000-calorie target, as in the claim's concrete scenario. -/
def userOnTrack : User :=
  ⟨none, some 2000, some 150, some 250, some 65, [], [], 3, "moderate"⟩

/-- A day with 1900 calories consumed over 3 logged meals. -/
def dbOnTrack : DB :=
  ⟨fun _ => ⟨1900, 100, 200, 50, 3⟩, fun _ => 500, [], none⟩

/-- Claim C7: the daily progress's `on_track` flag is true exactly when
the relative calorie deviation `|consumed − target| / target` (taken to
be 0 when the stored calorie target is 0) is at most 0.15 and at least 2
meals were logged; in particular 1900 consumed against a 2000 target
with 3 meals logged is on track. -/
theorem on_track_iff_within_15pct_and_2meals :
    (∀ (db : DB) (user : User) (d : ℤ),
      (get_daily_progress db user d).on_track = true ↔
        ((if (get_daily_progress db user d).calories_target = 0 then (0 : ℚ)
          else |((get_daily_progress db user d).calories_consumed : ℚ) -
              ((get_daily_progress db user d).calories_target : ℚ)| /
            ((get_daily_progress db user d).calories_target : ℚ)) ≤ 0.15 ∧
          2 ≤ (get_daily_progress db user d).meals_logged)) ∧
    (get_daily_progress dbOnTrack userOnTrack 0).calories_consumed = 1900 ∧
    (get_daily_progress dbOnTrack userOnTrack 0).calories_target = 2000 ∧
    (get_daily_progress dbOnTrack userOnTrack 0).meals_logged = 3 ∧
    (get_daily_progress dbOnTrack userOnTrack 0).on_track = true := by
  constructor
  · intro db user d
    simp only [get_daily_progress, Bool.and_eq_true, decide_eq_true_eq, ne_eq, ite_not]
  · have h1 : (get_daily_progress dbOnTrack userOnTrack 0).calories_target = 2000 := by
      simp [get_daily_progress, dbOnTrack, userOnTrack, orDefault]
    have h2 : (get_daily_progress dbOnTrack userOnTrack 0).on_track = true := by
      simp only [get_daily_progress, dbOnTrack, userOnTrack, orDefault, Bool.and_eq_true,
        decide_eq_true_eq]
      norm_num
    exact ⟨rfl, h1, rfl, h2⟩

/-! ## Claim C5: weekly report averages -/

/-- Claim C5 (amended): for every user and end date the weekly report
averages each nutrition field over exactly the 7 daily-progress values
for the 7 days ending at `end_date` (days without logs counting toward
the denominator), storing the arithmetic mean rounded half-to-even — not
the exact mean the claim states. -/
theorem weekly_report_avg_rounded_mean (db : DB) (user : User) (end_date : ℤ) :
    (get_weekly_report db user end_date).total_days = 7 ∧
    (get_weekly_report db user end_date).avg_calories =
      pyRound ((((((List.range 7).map (fun (i : ℕ) =>
        (get_daily_progress db user (end_date - 6 + (i : ℤ))).calories_consumed)).sum : ℤ) : ℚ)) / 7) ∧
    (get_weekly_report db user end_date).avg_protein =
      pyRound ((((((List.range 7).map (fun (i : ℕ) =>
        (get_daily_progress db user (end_date - 6 + (i : ℤ))).protein_consumed)).sum : ℤ) : ℚ)) / 7) ∧
    (get_weekly_report db user end_date).avg_carbs =
      pyRound ((((((List.range 7).map (fun (i : ℕ) =>
        (get_daily_progress db user (end_date - 6 + (i : ℤ))).carbs_consumed)).sum : ℤ) : ℚ)) / 7) ∧
    (get_weekly_report db user end_date).avg_fat =
      pyRound ((((((List.range 7).map (fun (i : ℕ) =>
        (get_daily_progress db user (end_date - 6 + (i : ℤ))).fat_consumed)).sum : ℤ) : ℚ)) / 7) := by
  refine ⟨?_, ?_, ?_, ?_, ?_⟩ <;>
    simp only [get_weekly_report, List.map_map, List.length_map, List.length_range,
      Function.comp_def, Nat.cast_ofNat]

/-- A user with no stored targets. -/
def userLightWeek : User := ⟨none, none, none, none, none, [], [], 3, "moderate"⟩

/-- A week in which a single calorie was logged on the last day. -/
def dbLightWeek : DB :=
  ⟨fun d => if d = 0 then ⟨1, 0, 0, 0, 0⟩ else ⟨0, 0, 0, 0, 0⟩, fun _ => 0, [], none⟩

/-- Claim C5 (as stated, refuted): the stored `avg_calories` is the
*rounded* 7-day mean, so it differs from the exact arithmetic mean
whenever the week's total is not divisible by 7: with one calorie logged
in the whole week the report stores 0 while the mean is 1/7. -/
theorem weekly_report_avg_claim_false :
    ((get_weekly_report dbLightWeek userLightWeek 0).avg_calories : ℚ) ≠
      ((((List.range 7).map (fun (i : ℕ) =>
        (get_daily_progress dbLightWeek userLightWeek (0 - 6 + (i : ℤ))).calories_consumed)).sum : ℤ) : ℚ) / 7 := by
  have hsum : (((List.range 7).map (fun (i : ℕ) =>
      (get_daily_progress dbLightWeek userLightWeek (0 - 6 + (i : ℤ))).calories_consumed)).sum : ℤ) = 1 := by
    simp [List.range_succ, get_daily_progress, dbLightWeek, userLightWeek]
  have havg : (get_weekly_report dbLightWeek userLightWeek 0).avg_calories = 0 := by
    obtain ⟨-, hc, -⟩ := weekly_report_avg_rounded_mean dbLightWeek userLightWeek 0
    rw [hc, hsum]
    norm_num [pyRound, Int.fract]
  rw [havg, hsum]
  norm_num

/-! ## Claim C6: the recommendation rule engine -/

/-- Claim C6 (amended): the recommendation list equals the spec's ordered
rule engine with the weight-loss praise read as "lost strictly more than
0.5 kg" — rule order, the leading consistency praise and the cap of 5 as
the claim states them. -/
theorem recommendations_match_spec (user : User) (daily_data : List DailyProgress)
    (avg_calories avg_protein : ℚ) (weight_change : Option ℚ) :
    generate_recommendations user daily_data avg_calories avg_protein weight_change =
      recommendations_spec_amended user daily_data avg_calories avg_protein weight_change := by
  unfold generate_recommendations recommendations_spec_amended recommendations_spec
  simp [List.countP_eq_length_filter, List.append_assoc]

/-- A quiet week: every metric on target, all days logged, no day on track. -/
def daySteady : DailyProgress := ⟨0, 0, 2000, 0, 150, 0, 250, 0, 65, 2000, 1, false⟩

/-- Seven such days. -/
def weekSteady : List DailyProgress :=
  [daySteady, daySteady, daySteady, daySteady, daySteady, daySteady, daySteady]

/-- A weight-loss user at their 2000-calorie and 150 g protein targets. -/
def userLoss : User :=
  ⟨some "weight_loss", some 2000, some 150, some 250, some 65, [], [], 3, "moderate"⟩

/-- Claim C6 (as stated, refuted): the code's weight-loss praise fires
only for a loss of strictly more than 0.5 kg (`weight_change < -0.5`),
not "at least 0.5 kg": at exactly 0.5 kg lost the code emits no
recommendation while the claimed rule list emits the praise line. -/
theorem recommendations_claim_false :
    generate_recommendations userLoss weekSteady 2000 150 (some (-0.5)) ≠
      recommendations_spec_claimed userLoss weekSteady 2000 150 (some (-0.5)) := by
  have hgen : generate_recommendations userLoss weekSteady 2000 150
      (some (-0.5)) = [] := by
    simp only [generate_recommendations, userLoss, weekSteady, daySteady, orDefault,
      Option.elim]
    norm_num
  have hspec : recommendations_spec_claimed userLoss weekSteady 2000 150
      (some (-0.5)) = [wlPraiseMsg] := by
    simp only [recommendations_spec_claimed, recommendations_spec, userLoss, weekSteady,
      daySteady, orDefault, Option.elim]
    norm_num
  rw [hgen, hspec]
  exact fun h => List.noConfusion h

/-! ## Non-emptiness of the filtering pipeline -/

lemma take_two_ne_nil {l : List MealT} (h : l ≠ []) : l.take 2 ≠ [] := by
  cases l with
  | nil => exact absurd rfl h
  | cons x xs => simp

lemma filter_by_restrictions_ne_nil (meals : List MealT) (restrictions : List String)
    (h : meals ≠ []) : filter_by_restrictions meals restrictions ≠ [] := by
  simp only [filter_by_restrictions]
  split_ifs with h1 h2
  · exact h
  · exact take_two_ne_nil h
  · exact fun hc => h2 (by rw [hc]; rfl)

lemma filter_by_cuisine_ne_nil (meals : List MealT) (preferences : List String)
    (h : meals ≠ []) : filter_by_cuisine meals preferences ≠ [] := by
  simp only [filter_by_cuisine]
  split_ifs with h1 h2
  · exact h
  · exact h
  · exact fun hc => h2 (by rw [hc]; rfl)

lemma choice_isSome {α : Type} (r : ℕ) (l : List α) (h : l ≠ []) :
    (choice r l).isSome = true := by
  unfold choice
  have hlen : 0 < l.length := List.length_pos.mpr h
  rw [List.getElem?_eq_getElem (Nat.mod_lt _ hlen)]
  rfl

lemma gen_meal_isSome (meal_type : String)
    (restrictions cuisine_preferences recent_meals : List String) (r : ℕ)
    (h : mealTemplatesOrEmpty meal_type ≠ []) :
    (gen_meal meal_type restrictions cuisine_preferences recent_meals r).isSome = true := by
  have h1 : filter_by_restrictions (mealTemplatesOrEmpty meal_type) restrictions ≠ [] :=
    filter_by_restrictions_ne_nil _ _ h
  have h2 : filter_by_cuisine
      (filter_by_restrictions (mealTemplatesOrEmpty meal_type) restrictions)
      cuisine_preferences ≠ [] :=
    filter_by_cuisine_ne_nil _ _ h1
  simp only [gen_meal]
  have hav : (if ((filter_by_cuisine
        (filter_by_restrictions (mealTemplatesOrEmpty meal_type) restrictions)
        cuisine_preferences).filter
          (fun m => ! recent_meals.contains m.name)).isEmpty then
      filter_by_cuisine
        (filter_by_restrictions (mealTemplatesOrEmpty meal_type) restrictions)
        cuisine_preferences
    else
      (filter_by_cuisine
        (filter_by_restrictions (mealTemplatesOrEmpty meal_type) restrictions)
        cuisine_preferences).filter
          (fun m => ! recent_meals.contains m.name)) ≠ [] := by
    split_ifs with he
    · exact h2
    · exact fun hc => he (by rw [hc]; rfl)
  obtain ⟨a, ha⟩ := Option.isSome_iff_exists.mp (choice_isSome r _ hav)
  rw [ha]
  rfl

lemma gen_slot_isSome (distribution : List (String × ℚ)) (meal_type : String)
    (restrictions cuisine_preferences recent_meals : List String) (r : ℕ)
    (h : mealTemplatesOrEmpty meal_type ≠ []) :
    (gen_slot distribution meal_type restrictions cuisine_preferences
      recent_meals r).isSome = true := by
  unfold gen_slot
  split_ifs with hmem
  · obtain ⟨a, ha⟩ := Option.isSome_iff_exists.mp
      (gen_meal_isSome meal_type restrictions cuisine_preferences recent_meals r h)
    rw [ha]
    rfl
  · rfl

lemma gen_snacks_isSome (distribution : List (String × ℚ)) (target_calories : ℤ)
    (restrictions : List String) (r : ℕ) :
    (gen_snacks distribution target_calories restrictions r).isSome = true := by
  simp only [gen_snacks]
  split_ifs with hpos
  · have hne : filter_by_restrictions snackTemplates restrictions ≠ [] :=
      filter_by_restrictions_ne_nil _ _ (by simp [snackTemplates])
    obtain ⟨a, ha⟩ := Option.isSome_iff_exists.mp (choice_isSome r _ hne)
    rw [ha]
    rfl
  · rfl

lemma rb_generate_isSome (user : User) (target_calories : ℤ)
    (restrictions cuisine_preferences recent_meals : List String) (rnd : ℕ → ℕ) :
    (RuleBasedProvider.generate_meal_plan user target_calories restrictions
      cuisine_preferences recent_meals rnd).isSome = true := by
  simp only [RuleBasedProvider.generate_meal_plan]
  obtain ⟨b, hb⟩ := Option.isSome_iff_exists.mp (gen_slot_isSome _ "breakfast"
    restrictions cuisine_preferences recent_meals (rnd 0)
    (by simp [mealTemplatesOrEmpty, breakfastTemplates]))
  obtain ⟨l, hl⟩ := Option.isSome_iff_exists.mp (gen_slot_isSome _ "lunch"
    restrictions cuisine_preferences recent_meals (rnd 1)
    (by simp [mealTemplatesOrEmpty, lunchTemplates]))
  obtain ⟨d, hd⟩ := Option.isSome_iff_exists.mp (gen_slot_isSome _ "dinner"
    restrictions cuisine_preferences recent_meals (rnd 2)
    (by simp [mealTemplatesOrEmpty, dinnerTemplates]))
  obtain ⟨s, hs⟩ := Option.isSome_iff_exists.mp (gen_snacks_isSome _ target_calories
    restrictions (rnd 3))
  rw [hb, hl, hd, hs]
  rfl

lemma mealTemplatesFor_ne_nil (meal_type : String) : mealTemplatesFor meal_type ≠ [] := by
  unfold mealTemplatesFor
  split_ifs <;>
    simp [breakfastTemplates, lunchTemplates, dinnerTemplates, snackTemplates]

lemma argminBy_isSome (f : MealT → ℤ) (l : List MealT) (h : l ≠ []) :
    (argminBy f l).isSome = true := by
  cases l with
  | nil => exact absurd rfl h
  | cons x xs => rfl

lemma rb_suggestion_isSome (user : User) (meal_type : String) (remaining_calories : ℤ) :
    (RuleBasedProvider.get_meal_suggestion user meal_type
      remaining_calories).isSome = true := by
  simp only [RuleBasedProvider.get_meal_suggestion]
  have hne : filter_by_cuisine
      (filter_by_restrictions (mealTemplatesFor meal_type) user.restrictions)
      user.cuisine_preferences ≠ [] :=
    filter_by_cuisine_ne_nil _ _
      (filter_by_restrictions_ne_nil _ _ (mealTemplatesFor_ne_nil meal_type))
  obtain ⟨a, ha⟩ := Option.isSome_iff_exists.mp
    (argminBy_isSome (fun m => |m.calories - remaining_calories|) _ hne)
  rw [ha]
  rfl

/-! ## Claim C9: restriction filtering never empties a non-empty pool -/

/-- Claim C9: for every non-empty meal list and every restriction list,
`_filter_by_restrictions` returns a non-empty list; when the keyword
rules would exclude every meal it returns the first two meals of the
unfiltered input instead of an empty list. -/
theorem filter_restrictions_never_empty (meals : List MealT)
    (restrictions : List String) (h : meals ≠ []) :
    filter_by_restrictions meals restrictions ≠ [] ∧
    (¬ restrictions.isEmpty →
      (meals.filter (fun m => ! excludedMeal m restrictions)).isEmpty →
      filter_by_restrictions meals restrictions = meals.take 2) := by
  refine ⟨filter_by_restrictions_ne_nil meals restrictions h, fun hr he => ?_⟩
  simp only [filter_by_restrictions]
  rw [if_neg hr, if_pos he]

/-- Witness for `filter_restrictions_never_empty`: the vegan restriction
excludes every snack template containing a keyword, yet the filter still
returns a non-empty list. -/
theorem filter_restrictions_never_empty_witness :
    snackTemplates ≠ [] ∧
    filter_by_restrictions snackTemplates ["vegan", "gluten-free"] ≠ [] :=
  ⟨by simp [snackTemplates],
   (filter_restrictions_never_empty snackTemplates ["vegan", "gluten-free"]
     (by simp [snackTemplates])).1⟩

/-! ## Claim C10: exactly one snack in every rule-based plan -/

lemma pyTrunc_pos_of_one_le (x : ℚ) (h : 1 ≤ x) : 0 < pyTrunc x := by
  unfold pyTrunc
  rw [if_pos (le_trans zero_le_one h)]
  have hfl : (1 : ℤ) ≤ ⌊x⌋ := Int.le_floor.mpr (by exact_mod_cast h)
  omega

lemma snack_share_cases (meal_frequency : ℤ) (goal_type : String) :
    ((get_meal_distribution meal_frequency goal_type).lookup "snacks").getD 0.1 = 0.1 ∨
    ((get_meal_distribution meal_frequency goal_type).lookup "snacks").getD 0.1 = 0.15 := by
  unfold get_meal_distribution
  split_ifs <;> (simp [List.lookup]; try norm_num)

/-- Claim C10: whenever the target calories are at least 10, the
rule-based `generate_meal_plan` produces a plan whose `snacks` list has
exactly one element, for every meal frequency and goal — including the
distributions with no `snacks` entry (the share silently defaults to
0.1) and the frequency-≥5 distribution, whose named snack slots are never
generated as meals (the loop only materialises breakfast/lunch/dinner). -/
theorem rulebased_plan_single_snack (user : User) (target_calories : ℤ)
    (restrictions cuisine_preferences recent_meals : List String) (rnd : ℕ → ℕ)
    (h : 10 ≤ target_calories) :
    ∃ plan, RuleBasedProvider.generate_meal_plan user target_calories restrictions
        cuisine_preferences recent_meals rnd = some plan ∧
      plan.snacks.length = 1 := by
  simp only [RuleBasedProvider.generate_meal_plan]
  have hpos : 0 < pyTrunc ((target_calories : ℚ) *
      (((get_meal_distribution user.meal_frequency
        (orDefaultStr user.goal_type "maintenance")).lookup "snacks").getD 0.1)) := by
    apply pyTrunc_pos_of_one_le
    have h10 : (10 : ℚ) ≤ (target_calories : ℚ) := by exact_mod_cast h
    rcases snack_share_cases user.meal_frequency
        (orDefaultStr user.goal_type "maintenance") with hs | hs <;>
      rw [hs] <;> nlinarith
  have hne : filter_by_restrictions snackTemplates restrictions ≠ [] :=
    filter_by_restrictions_ne_nil _ _ (by simp [snackTemplates])
  obtain ⟨snack, hsn⟩ := Option.isSome_iff_exists.mp (choice_isSome (rnd 3) _ hne)
  have hsnacks : gen_snacks (get_meal_distribution user.meal_frequency
        (orDefaultStr user.goal_type "maintenance")) target_calories restrictions
        (rnd 3) =
      some [⟨snack.name, snack.calories, snack.protein, snack.carbs, snack.fat⟩] := by
    simp only [gen_snacks]
    rw [if_pos hpos, hsn]
    rfl
  obtain ⟨b, hb⟩ := Option.isSome_iff_exists.mp (gen_slot_isSome _ "breakfast"
    restrictions cuisine_preferences recent_meals (rnd 0)
    (by simp [mealTemplatesOrEmpty, breakfastTemplates]))
  obtain ⟨l, hl⟩ := Option.isSome_iff_exists.mp (gen_slot_isSome _ "lunch"
    restrictions cuisine_preferences recent_meals (rnd 1)
    (by simp [mealTemplatesOrEmpty, lunchTemplates]))
  obtain ⟨d, hd⟩ := Option.isSome_iff_exists.mp (gen_slot_isSome _ "dinner"
    restrictions cuisine_preferences recent_meals (rnd 2)
    (by simp [mealTemplatesOrEmpty, dinnerTemplates]))
  rw [hb, hl, hd, hsnacks]
  exact ⟨_, rfl, rfl⟩

/-- A fresh user with no stored targets, restrictions or preferences. -/
def userPlain : User := ⟨none, none, none, none, none, [], [], 3, "moderate"⟩

/-- Witness for `rulebased_plan_single_snack` at target 2000 for a plain
user and constant randomness. -/
theorem rulebased_plan_single_snack_witness :
    (10 : ℤ) ≤ 2000 ∧
    ∃ plan, RuleBasedProvider.generate_meal_plan userPlain 2000 [] [] []
        (fun _ => 0) = some plan ∧ plan.snacks.length = 1 :=
  ⟨by norm_num,
   rulebased_plan_single_snack userPlain 2000 [] [] [] (fun _ => 0) (by norm_num)⟩

/-! ## Claim C2: the AIPlanner fallback contract -/

/-- Claim C2: whenever the configured provider's capability fails, the
`AIPlanner` wrapper returns exactly the rule-based implementation's
result for the same (derived) arguments, and that fallback result is
always a well-formed value (`isSome` — no hard failure) for
`generate_meal_plan` and `get_meal_suggestion`; `parse_food_log` falls
back to the total keyword estimator. -/
theorem ai_planner_falls_back (provider : ProviderOps) (user : User)
    (recent_meals : Option (List String)) (rnd : ℕ → ℕ) (food_description : String)
    (meal_type : String) (remaining_calories : ℤ) (e1 e2 e3 : String) :
    (provider.generate_meal_plan user (orDefault user.target_calories 2000)
        user.restrictions user.cuisine_preferences (recent_meals.getD []) = .error e1 →
      AIPlanner.generate_meal_plan provider user recent_meals rnd =
        RuleBasedProvider.generate_meal_plan user (orDefault user.target_calories 2000)
          user.restrictions user.cuisine_preferences (recent_meals.getD []) rnd ∧
      (AIPlanner.generate_meal_plan provider user recent_meals rnd).isSome = true) ∧
    (provider.parse_food_log food_description = .error e2 →
      AIPlanner.parse_food_log provider food_description =
        estimate_food_nutrition food_description) ∧
    (provider.get_meal_suggestion user meal_type remaining_calories = .error e3 →
      AIPlanner.get_meal_suggestion provider user meal_type remaining_calories =
        RuleBasedProvider.get_meal_suggestion user meal_type remaining_calories ∧
      (AIPlanner.get_meal_suggestion provider user meal_type
        remaining_calories).isSome = true) := by
  refine ⟨fun h1 => ?_, fun h2 => ?_, fun h3 => ?_⟩
  · have heq : AIPlanner.generate_meal_plan provider user recent_meals rnd =
        RuleBasedProvider.generate_meal_plan user (orDefault user.target_calories 2000)
          user.restrictions user.cuisine_preferences (recent_meals.getD []) rnd := by
      simp only [AIPlanner.generate_meal_plan]
      rw [h1]
    exact ⟨heq, heq ▸ rb_generate_isSome user (orDefault user.target_calories 2000)
      user.restrictions user.cuisine_preferences (recent_meals.getD []) rnd⟩
  · simp only [AIPlanner.parse_food_log]
    rw [h2]
  · have heq : AIPlanner.get_meal_suggestion provider user meal_type
        remaining_calories =
        RuleBasedProvider.get_meal_suggestion user meal_type remaining_calories := by
      simp only [AIPlanner.get_meal_suggestion]
      rw [h3]
    exact ⟨heq, heq ▸ rb_suggestion_isSome user meal_type remaining_calories⟩

/-- A provider whose every capability raises. -/
def failingProvider : ProviderOps :=
  ⟨fun _ _ _ _ _ => .error "boom", fun _ => .error "boom", fun _ _ _ => .error "boom"⟩

/-- Witness for `ai_planner_falls_back`: with an always-raising provider
every wrapper call degrades to the rule-based result and succeeds. -/
theorem ai_planner_falls_back_witness :
    (AIPlanner.generate_meal_plan failingProvider userPlain none (fun _ => 0) =
      RuleBasedProvider.generate_meal_plan userPlain
        (orDefault userPlain.target_calories 2000) userPlain.restrictions
        userPlain.cuisine_preferences ((none : Option (List String)).getD [])
        (fun _ => 0)) ∧
    (AIPlanner.generate_meal_plan failingProvider userPlain none
      (fun _ => 0)).isSome = true ∧
    AIPlanner.parse_food_log failingProvider "grilled chicken breast" =
      estimate_food_nutrition "grilled chicken breast" ∧
    AIPlanner.get_meal_suggestion failingProvider userPlain "snack" 300 =
      RuleBasedProvider.get_meal_suggestion userPlain "snack" 300 ∧
    (AIPlanner.get_meal_suggestion failingProvider userPlain "snack" 300).isSome
      = true := by
  have h := ai_planner_falls_back failingProvider userPlain none (fun _ => 0)
    "grilled chicken breast" "snack" 300 "boom" "boom" "boom"
  exact ⟨(h.1 rfl).1, (h.1 rfl).2, h.2.1 rfl, (h.2.2 rfl).1, (h.2.2 rfl).2⟩

/-! ## Claim C1: persisted plan totals and the scheduler's snack omission -/

/-- The plan the rule-based provider can produce whose snack carries
nonzero protein/carbs/fat (snack: Greek Yogurt, 150 kcal, 15 g protein). -/
def planExample : PlanData :=
  { breakfast := some ⟨"Oatmeal with Berries", "A healthy breakfast option",
      350, 12, 55, 8, 20, []⟩
    lunch := some ⟨"Grilled Chicken Salad", "A healthy lunch option",
      450, 35, 20, 25, 20, []⟩
    dinner := some ⟨"Baked Salmon with Vegetables", "A healthy dinner option",
      500, 40, 25, 28, 20, []⟩
    snacks := [⟨"Greek Yogurt", 150, 15, 10, 5⟩]
    shopping_list := [] }

/-- Claim C1 (violated by the scheduler path): the chat `/plan` path
stores all four totals as the sum over breakfast, lunch, dinner and all
snacks, but the scheduled morning-plan job omits the snacks from the
protein, carbs and fat totals: on a plan whose snack is the Greek Yogurt
template the scheduler stores `total_protein` 87 while the sum including
the snack is 102. -/
theorem plan_totals_scheduler_drops_snacks :
    (∀ p : PlanData, telegram_plan_totals p =
      ⟨mainMealsSum p (fun m => m.calories) + (p.snacks.map (fun s => s.calories)).sum,
       mainMealsSum p (fun m => m.protein) + (p.snacks.map (fun s => s.protein)).sum,
       mainMealsSum p (fun m => m.carbs) + (p.snacks.map (fun s => s.carbs)).sum,
       mainMealsSum p (fun m => m.fat) + (p.snacks.map (fun s => s.fat)).sum⟩) ∧
    (scheduler_plan_totals planExample).protein = 87 ∧
    mainMealsSum planExample (fun m => m.protein) +
      (planExample.snacks.map (fun s => s.protein)).sum = 102 ∧
    (scheduler_plan_totals planExample).protein ≠
      mainMealsSum planExample (fun m => m.protein) +
        (planExample.snacks.map (fun s => s.protein)).sum := by
  refine ⟨fun p => rfl, ?_, ?_, ?_⟩ <;>
    simp [scheduler_plan_totals, mainMealsSum, planExample]

end DietAgent
